import Mathlib

/-!
Verification of `NGSLogPrep.py` (PureFallen/NGSLogPrep).

The Python class `NGSLogPrep` tails PSO2/NGS log files.  This file is a
shallow embedding of its operations:

* `feed` / `get_lines` — the byte-at-a-time framing loop of `get_lines`
  (source lines 149-176): bytes accumulate in the bytearray `__ba`; when
  its last four bytes equal the terminator the bytes before the terminator
  are decoded as UTF-16-BE; on `UnicodeDecodeError` the line is dropped and
  an error event is logged; either way the buffer is reset to an empty
  bytearray.
* `utf16beDecode` — Python's strict `bytes.decode` with the UTF-16-BE
  codec: bytes are paired big-endian into 16-bit units, surrogate pairs are
  combined, and decoding fails (`none`) on odd byte counts or unpaired
  surrogates.
* `open_log_file_state` — the post-success state of `__open_log_file`
  (lines 79-119): seek-to-end in live mode / 2-byte BOM skip in one-shot
  mode, and the buffer reset to the single sentinel byte `0x00`.
* `openLoop` — the retry/warn loop of `__open_log_file` over a
  time-indexed existence predicate (one attempt per second, `sleep(1)`).
* `NGSLogPrep_init_path` / `NGSLogPrep_init_live` — `__init__`
  (lines 18-77) in one-shot (`is_path=True`) and live mode.
* `tickVariant` / `tickDate` / `tick` — one iteration of the
  `__log_monitor` daemon loop body (lines 121-147).

Bytes are `Nat` (0..255), decoded lines are lists of Unicode scalar
values, and paths are lists of path components (`os.path.join` appends a
component, `os.path.dirname` drops the last one).
-/

/-- The 4-byte record terminator checked on line 167 of the source
(null byte, carriage return, null byte, line feed). -/
def termBytes : List Nat := [0x00, 0x0D, 0x00, 0x0A]

/-- Pair a byte string big-endian into 16-bit code units; `none` on an odd
number of bytes (Python raises a decode error: truncated data). -/
def pairBytes : List Nat → Option (List Nat)
  | [] => some []
  | [_] => none
  | hi :: lo :: rest => (pairBytes rest).map fun us => (hi * 256 + lo) :: us

/-- Combine a 16-bit code-unit stream into Unicode scalar values; `none` on
an unpaired surrogate (Python's strict UTF-16 decoder raises there). -/
def combineSurrogates : List Nat → Option (List Nat)
  | [] => some []
  | [u] =>
    if 0xD800 ≤ u ∧ u < 0xE000 then none else some [u]
  | u :: v :: rest =>
    if 0xD800 ≤ u ∧ u < 0xDC00 then
      if 0xDC00 ≤ v ∧ v < 0xE000 then
        (combineSurrogates rest).map
          fun cs => (0x10000 + (u - 0xD800) * 0x400 + (v - 0xDC00)) :: cs
      else none
    else if 0xDC00 ≤ u ∧ u < 0xE000 then none
    else (combineSurrogates (v :: rest)).map fun cs => u :: cs

/-- Python's strict `bytes.decode` with codec UTF-16-BE (source line 169). -/
def utf16beDecode (bs : List Nat) : Option (List Nat) :=
  (pairBytes bs).bind combineSurrogates

/-- Outcome of consuming one byte in the `get_lines` loop. -/
inductive FeedOut where
  | noLine : FeedOut
  | line : List Nat → FeedOut
  | decodeError : FeedOut
deriving DecidableEq, Repr

/-- One iteration of the `while byte := self.__f.read(1)` loop body of
`get_lines` (source lines 164-175): append the byte to `__ba`; if the last
four bytes equal `termBytes`, decode everything before the terminator as
UTF-16-BE (`FeedOut.line` on success, `FeedOut.decodeError` on failure —
the `except UnicodeDecodeError` branch) and reset `__ba` to an empty
bytearray (the `finally` branch, line 175). -/
def feed (ba : List Nat) (b : Nat) : List Nat × FeedOut :=
  let ba2 := ba ++ [b]
  if termBytes.isSuffixOf ba2 then
    match utf16beDecode (ba2.take (ba2.length - 4)) with
    | some cps => ([], FeedOut.line cps)
    | none => ([], FeedOut.decodeError)
  else (ba2, FeedOut.noLine)

/-- The full `get_lines` read loop over the bytes available from the file:
returns the final buffer `__ba`, the list `log_lines` in emission order,
and the number of `UnicodeDecodeError` diagnostics logged (line 171).
All exceptions are caught inside the loop, so the function is total. -/
def get_lines : List Nat → List Nat → List Nat × List (List Nat) × Nat
  | ba, [] => (ba, [], 0)
  | ba, b :: rest =>
    let fr := feed ba b
    let r := get_lines fr.1 rest
    match fr.2 with
    | FeedOut.noLine => r
    | FeedOut.line cps => (r.1, cps :: r.2.1, r.2.2)
    | FeedOut.decodeError => (r.1, r.2.1, r.2.2 + 1)

/-- Paths are modelled as lists of path components: `os.path.join a b`
appends the component `b` and `os.path.dirname` drops the last component. -/
abbrev LogPath := List String

/-- A snapshot of the filesystem: which paths exist (`os.path.exists`),
their modification times (`os.path.getmtime`) and their byte contents. -/
structure LogFS where
  existsp : LogPath → Bool
  mtime : LogPath → Nat
  content : LogPath → List Nat

/-- Python's lexicographic string order (`<` on `str`), by code point. -/
def pyStrLtChars : List Char → List Char → Bool
  | [], [] => false
  | [], _ :: _ => true
  | _ :: _, [] => false
  | a :: as, b :: bs =>
    if a.toNat < b.toNat then true
    else if b.toNat < a.toNat then false
    else pyStrLtChars as bs

/-- `a < b` for Python strings (used by `current_date > self.__log_date`,
source line 139, with the arguments swapped). -/
def pyStrLt (a b : String) : Bool := pyStrLtChars a.data b.data

/-- Python's `max(a, b, key=key)`: the second argument wins only when its
key is strictly greater, so ties return the first argument (line 133). -/
def pyMax2 (key : LogPath → Nat) (a b : LogPath) : LogPath :=
  if key b > key a then b else a

/-- Python's `max(xs, key=key)` over a list: `none` on an empty list
(where Python raises `ValueError`, caught on line 52), otherwise the first
element of maximal key. -/
def pyMaxList (key : LogPath → Nat) : List LogPath → Option LogPath
  | [] => none
  | x :: xs => some (xs.foldl (fun acc y => if key y > key acc then y else acc) x)

/-- The filename built by the f-strings of lines 61, 128-129 and 142-145:
`<log_type><log_date>_00.txt`. -/
def logFileName (log_type log_date : String) : String :=
  log_type ++ log_date ++ "_00.txt"

/-- The file-and-framing state established by a successful iteration of
`__open_log_file` (source lines 102-117): in live mode (`is_path=False`)
the cursor seeks to end-of-file (`seek(0, 2)`, line 105), so no bytes of
the current content remain to be read; in one-shot mode the 2-byte BOM is
skipped (`read(2)`, line 108); in both modes `__ba` is reset to the single
sentinel byte `0x00` (line 115). -/
structure FileState where
  ba : List Nat
  toRead : List Nat
deriving DecidableEq, Repr

def open_log_file_state (is_path : Bool) (content : List Nat) : FileState :=
  { ba := [0x00]
    toRead := if is_path then content.drop 2 else [] }

/-- The retry loop of `__open_log_file` (lines 89-119) over a time-indexed
existence predicate: attempt `k` happens `k` seconds after the call
(`sleep(1)`, line 119).  `error_fnf` records whether the file-not-found
diagnostic was already logged (lines 97-101); `warns` counts the logged
diagnostics.  Returns `some (k, warns)` for the first successful attempt;
`fuel` only bounds the modelled unrolling — the Python loop is unbounded. -/
def openLoop (existsAt : Nat → Bool) : Nat → Nat → Bool → Nat → Option (Nat × Nat)
  | 0, _, _, _ => none
  | fuel + 1, k, error_fnf, warns =>
    if existsAt k then some (k, warns)
    else openLoop existsAt fuel (k + 1) true (if error_fnf then warns else warns + 1)

/-- The attributes of an `NGSLogPrep` object that the claims observe.
`log_path` is `none` when the `__log_path` attribute was never assigned
(reading it then raises `AttributeError`). -/
structure Prep where
  is_path : Bool
  ba : List Nat
  toRead : List Nat
  log_path : Option LogPath
deriving DecidableEq, Repr

def pathToString (p : LogPath) : String := String.intercalate "\x5c" p

/-- `__init__` with `is_path=True` (source lines 72-77): if the target
exists, `__open_log_file` is entered and (the filesystem being a fixed
snapshot) succeeds on its first attempt; otherwise `FileNotFoundError` is
raised at once.  The second component counts the `open` attempts made, so
the error branch performs zero attempts (the retry loop is never
entered). -/
def NGSLogPrep_init_path (fs : LogFS) (target : LogPath) :
    Except String Prep × Nat :=
  if fs.existsp target then
    (Except.ok
      { is_path := true
        ba := (open_log_file_state true (fs.content target)).ba
        toRead := (open_log_file_state true (fs.content target)).toRead
        log_path := none }, 1)
  else
    (Except.error ("No such log file: " ++ pathToString target), 0)

/-- `__init__` with `is_path=False` (source lines 41-69): `__log_path` is
set to the directory of the most recently modified glob match (line 49),
the dated file under it is opened with retry (the open resets `__ba` to
the sentinel and seeks to end), and `__log_path` is then replaced by its
own parent directory (line 66).  An empty glob raises `ValueError`
(lines 52-54). -/
def NGSLogPrep_init_live (globResults : List LogPath) (key : LogPath → Nat) :
    Except String Prep :=
  match pyMaxList key globResults with
  | none => Except.error "Found no suitable logs folder"
  | some m =>
    Except.ok
      { is_path := false
        ba := (open_log_file_state false []).ba
        toRead := (open_log_file_state false []).toRead
        log_path := some m.dropLast.dropLast }

/-- The state carried by the `__log_monitor` daemon loop (lines 121-147):
`log_path` is the root directory (parent of the variant directories),
`f_name` is `self.__f.name` (the path of the currently open file), and
`base_path` / `ngs_path` are the loop-carried candidate paths computed on
lines 128-129 and refreshed on lines 144-145. -/
structure MonState where
  log_path : LogPath
  log_type : String
  log_date : String
  f_name : LogPath
  base_path : LogPath
  ngs_path : LogPath
deriving DecidableEq, Repr

/-- The variant check of one monitor tick (lines 131-135): only when both
candidate files exist, the most recently modified one is selected
(`max(base_path, ngs_path, key=os.path.getmtime)`) and, if it differs from
the currently open file, reopened.  The second component lists the paths
passed to `__open_log_file`. -/
def tickVariant (fs : LogFS) (st : MonState) : MonState × List LogPath :=
  if fs.existsp st.base_path && fs.existsp st.ngs_path then
    let last_path := pyMax2 fs.mtime st.base_path st.ngs_path
    if last_path ≠ st.f_name then ({ st with f_name := last_path }, [last_path])
    else (st, [])
  else (st, [])

/-- The UTC-midnight check of one monitor tick (lines 137-145): when the
current date is greater than the stored date, the stored date is updated,
the file `<log_type><new date>_00.txt` is reopened under
`os.path.dirname(self.__f.name)` — the directory of the currently open
file (line 142) — and both candidate paths are recomputed under
`__log_path` for the new date. -/
def tickDate (current_date : String) (st : MonState) : MonState × List LogPath :=
  if pyStrLt st.log_date current_date then
    let nf := st.f_name.dropLast ++ [logFileName st.log_type current_date]
    ({ st with
        log_date := current_date
        f_name := nf
        base_path := st.log_path ++ ["log", logFileName st.log_type current_date]
        ngs_path := st.log_path ++ ["log_ngs", logFileName st.log_type current_date] },
      [nf])
  else (st, [])

/-- One full iteration of the `__log_monitor` loop body (lines 130-147):
the variant check followed by the date check; the second component lists
the reopens triggered, in order. -/
def tick (fs : LogFS) (current_date : String) (st : MonState) :
    MonState × List LogPath :=
  let a := tickVariant fs st
  let b := tickDate current_date a.1
  (b.1, a.2 ++ b.2)

/-- No proper nonempty chunk of `s` appended to buffer `ba` ends with the
terminator: the framing check of line 167 does not fire before the last
byte of `s` is consumed. -/
def noEarlyTermB (ba s : List Nat) : Bool :=
  (List.range (s.length - 1)).all fun k =>
    !(termBytes.isSuffixOf (ba ++ s.take (k + 1)))

/-- The file of claim C1: `FF FE`, UTF-16BE "hi", the terminator,
UTF-16BE "bye", the terminator. -/
def c1_file : List Nat :=
  [0xFF, 0xFE,
   0x00, 0x68, 0x00, 0x69, 0x00, 0x0D, 0x00, 0x0A,
   0x00, 0x62, 0x00, 0x79, 0x00, 0x65, 0x00, 0x0D, 0x00, 0x0A]

def c1_target : LogPath := ["C:", "logs", "message.txt"]

def c1_fs : LogFS :=
  { existsp := fun p => p == c1_target
    mtime := fun _ => 0
    content := fun _ => c1_file }

/-- One-shot pipeline of claim C1: construct with `is_path=True` on the
file, then call `get_lines` once; the emitted lines. -/
def c1_lines : List (List Nat) :=
  match (NGSLogPrep_init_path c1_fs c1_target).1 with
  | Except.ok p => (get_lines p.ba p.toRead).2.1
  | Except.error _ => []

/-- Decode-error diagnostics logged by the same `get_lines` call. -/
def c1_errors : Nat :=
  match (NGSLogPrep_init_path c1_fs c1_target).1 with
  | Except.ok p => (get_lines p.ba p.toRead).2.2
  | Except.error _ => 0

def c7_glob : List LogPath :=
  [["C:", "Users", "u", "Documents", "SEGA", "PHANTASYSTARONLINE2",
    "log", "ChatLog20251011_00.txt"]]

def c7_live_prep : Prep :=
  { is_path := false
    ba := [0x00]
    toRead := []
    log_path := some ["C:", "Users", "u", "Documents", "SEGA",
                      "PHANTASYSTARONLINE2"] }

def c7_path_prep : Prep :=
  { is_path := true
    ba := [0x00]
    toRead := c1_file.drop 2
    log_path := none }

def c3_state : MonState :=
  { log_path := ["R"]
    log_type := "Chat"
    log_date := "20251011"
    f_name := ["R", "log_ngs", "Chat20251011_00.txt"]
    base_path := ["R", "log", "Chat20251011_00.txt"]
    ngs_path := ["R", "log_ngs", "Chat20251011_00.txt"] }

def c3_fs : LogFS :=
  { existsp := fun _ => false
    mtime := fun _ => 0
    content := fun _ => [] }

def c4_fs : LogFS :=
  { existsp := fun p => p == ["R", "log_ngs", "Chat20251011_00.txt"]
    mtime := fun _ => 5
    content := fun _ => [] }

def c4_state : MonState :=
  { log_path := ["R"]
    log_type := "Chat"
    log_date := "20251011"
    f_name := ["R", "log", "Chat20251011_00.txt"]
    base_path := ["R", "log", "Chat20251011_00.txt"]
    ngs_path := ["R", "log_ngs", "Chat20251011_00.txt"] }

def c4w_fs : LogFS :=
  { existsp := fun _ => true
    mtime := fun p => if p == (["R", "log_ngs", "Chat20251011_00.txt"] : LogPath)
      then 10 else 5
    content := fun _ => [] }

def c10_fs : LogFS :=
  { existsp := fun _ => true
    mtime := fun _ => 7
    content := fun _ => [] }

def c10_state : MonState :=
  { log_path := ["R"]
    log_type := "Act"
    log_date := "20251011"
    f_name := ["R", "log_ngs", "Act20251011_00.txt"]
    base_path := ["R", "log", "Act20251011_00.txt"]
    ngs_path := ["R", "log_ngs", "Act20251011_00.txt"] }

theorem noEarlyTermB_spec {ba s : List Nat} (h : noEarlyTermB ba s = true) :
    ∀ k, k < s.length - 1 →
      termBytes.isSuffixOf (ba ++ s.take (k + 1)) = false := by
  intro k hk
  have h2 := List.all_eq_true.1 h k (List.mem_range.2 hk)
  simpa using h2

theorem suffix_append_right_iff {u v l : List Nat} (h : u.length = v.length) :
    u <:+ l ++ v ↔ u = v := by
  constructor
  · rintro ⟨t, ht⟩
    have hlen : t.length = l.length := by
      have h3 := congrArg List.length ht
      simp only [List.length_append, h] at h3
      omega
    exact (List.append_inj ht hlen).2
  · rintro rfl
    exact ⟨l, rfl⟩

theorem termBytes_suffix_append (l : List Nat) :
    termBytes.isSuffixOf (l ++ termBytes) = true :=
  List.isSuffixOf_iff_suffix.2 ⟨l, rfl⟩

theorem termBytes_not_suffix {ba : List Nat} {x y c d : Nat}
    (h : ¬ termBytes = [x, y, c, d]) :
    termBytes.isSuffixOf (ba ++ [x, y, c, d]) = false := by
  rw [Bool.eq_false_iff]
  intro hs
  have hs2 : termBytes <:+ ba ++ [x, y, c, d] := List.isSuffixOf_iff_suffix.1 hs
  exact h ((suffix_append_right_iff (u := termBytes) (v := [x, y, c, d]) (l := ba) rfl).1 hs2)

theorem get_lines_append (xs ys : List Nat) (ba : List Nat) :
    get_lines ba (xs ++ ys) =
      ((get_lines (get_lines ba xs).1 ys).1,
       (get_lines ba xs).2.1 ++ (get_lines (get_lines ba xs).1 ys).2.1,
       (get_lines ba xs).2.2 + (get_lines (get_lines ba xs).1 ys).2.2) := by
  induction xs generalizing ba with
  | nil => simp [get_lines]
  | cons x t ih =>
    simp only [List.cons_append, get_lines]
    cases hf : (feed ba x).2 <;>
      simp [hf, ih ((feed ba x).1)] <;> omega

theorem get_lines_accum (xs : List Nat) :
    ∀ ba : List Nat,
      (∀ k, k < xs.length →
        termBytes.isSuffixOf (ba ++ xs.take (k + 1)) = false) →
      get_lines ba xs = (ba ++ xs, [], 0) := by
  induction xs with
  | nil => intro ba _; simp [get_lines]
  | cons x t ih =>
    intro ba h
    have h0 : termBytes.isSuffixOf (ba ++ [x]) = false := by
      have h1 := h 0 (by simp)
      simpa using h1
    have hfeed : feed ba x = (ba ++ [x], FeedOut.noLine) := by
      simp [feed, h0]
    have ht : ∀ k, k < t.length →
        termBytes.isSuffixOf ((ba ++ [x]) ++ t.take (k + 1)) = false := by
      intro k hk
      have h2 := h (k + 1) (by simpa using Nat.succ_lt_succ hk)
      simpa [List.take_succ_cons, List.append_assoc] using h2
    calc get_lines ba (x :: t) = get_lines (ba ++ [x]) t := by
          simp [get_lines, hfeed]
      _ = ((ba ++ [x]) ++ t, [], 0) := ih (ba ++ [x]) ht
      _ = (ba ++ x :: t, [], 0) := by simp

theorem feed_last (pre : List Nat) :
    feed (pre ++ [0x00, 0x0D, 0x00]) 0x0A =
      match utf16beDecode pre with
      | some cps => ([], FeedOut.line cps)
      | none => ([], FeedOut.decodeError) := by
  have h1 : (pre ++ [0x00, 0x0D, 0x00]) ++ [0x0A] = pre ++ termBytes := by
    simp [termBytes]
  have h2 : termBytes.isSuffixOf (pre ++ termBytes) = true :=
    termBytes_suffix_append pre
  have h3 : (pre ++ termBytes).take ((pre ++ termBytes).length - 4) = pre := by
    have h4 : (pre ++ termBytes).length - 4 = pre.length := by simp [termBytes]
    rw [h4]
    exact List.take_left pre termBytes
  simp only [feed, h1, h2, if_true, h3]

/-- Framing a single record: if no proper chunk of `r ++ termBytes` fires
the terminator check early, the loop emits exactly the decode of the
buffer followed by the record bytes (or one decode-error event when the
decode fails), and the buffer is left empty either way. -/
theorem get_lines_record (ba r : List Nat)
    (h : noEarlyTermB ba (r ++ termBytes) = true) :
    get_lines ba (r ++ termBytes) =
      match utf16beDecode (ba ++ r) with
      | some cps => ([], [cps], 0)
      | none => ([], [], 1) := by
  have hsplit : r ++ termBytes = (r ++ [0x00, 0x0D, 0x00]) ++ [0x0A] := by
    simp [termBytes]
  have hno : ∀ k, k < (r ++ [0x00, 0x0D, 0x00]).length →
      termBytes.isSuffixOf (ba ++ (r ++ [0x00, 0x0D, 0x00]).take (k + 1)) = false := by
    intro k hk
    have hk2 : k < (r ++ termBytes).length - 1 := by
      simp only [List.length_append, termBytes] at hk ⊢
      simp at hk ⊢
      omega
    have h5 := noEarlyTermB_spec h k hk2
    have htake : (r ++ termBytes).take (k + 1) =
        (r ++ [0x00, 0x0D, 0x00]).take (k + 1) := by
      rw [hsplit]
      exact List.take_append_of_le_length hk
    rwa [htake] at h5
  have haccum := get_lines_accum (r ++ [0x00, 0x0D, 0x00]) ba hno
  have hassoc : ba ++ (r ++ [0x00, 0x0D, 0x00]) = (ba ++ r) ++ [0x00, 0x0D, 0x00] := by
    simp
  have hfeed := feed_last (ba ++ r)
  rw [← hassoc] at hfeed
  rw [hsplit, get_lines_append, haccum]
  cases hdec : utf16beDecode (ba ++ r) <;>
    simp [get_lines, hfeed, hdec]

/-- Claim C1 is false on the code: on the stated file the one-shot
pipeline does not return the lines "hi", "bye" (code points
`[[0x68, 0x69], [0x62, 0x79, 0x65]]`). -/
theorem c1_counterexample :
    c1_lines ≠ [[0x68, 0x69], [0x62, 0x79, 0x65]] := by decide

/-- Claim C1 (amended): on the stated file the one-shot pipeline returns
exactly the single line "bye" and logs one decode-error diagnostic: after
the 2-byte BOM skip the buffer holds the sentinel `0x00`, so the first
record's bytes (sentinel plus 6 record bytes, 7 in total) are odd in
number and fail UTF-16-BE decoding; the reset to an empty buffer
re-aligns the stream and the second record decodes as "bye". -/
theorem c1_one_shot_returns_bye :
    c1_lines = [[0x62, 0x79, 0x65]] ∧ c1_errors = 1 := by decide

/-- Claim C2 is false on the code: feeding one complete record from the
post-open sentinel state emits the line "hi", but the buffer afterwards is
the empty bytearray (line 175 of the source), not the single sentinel
byte. -/
theorem c2_counterexample :
    get_lines [0x00] [0x68, 0x00, 0x69, 0x00, 0x0D, 0x00, 0x0A] =
      ([], [[0x68, 0x69]], 0) ∧ ([] : List Nat) ≠ [0x00] := by decide

/-- Claim C2 (amended): immediately after any (re)open of a file in either
mode the buffer contains exactly the single sentinel byte `0x00`
(line 115); but immediately after `get_lines` emits a completed line the
buffer is reset to the empty bytearray (line 175), not to the sentinel:
for every record fed byte-by-byte up to its terminator whose
buffer-prefixed bytes decode as UTF-16-BE (and which does not fire the
terminator check early), exactly one line equal to the decoded text
preceding the terminator is emitted, and the buffer afterwards is
empty. -/
theorem c2_buffer_reset (is_path : Bool) (content : List Nat)
    (ba r cps : List Nat)
    (h1 : noEarlyTermB ba (r ++ termBytes) = true)
    (h2 : utf16beDecode (ba ++ r) = some cps) :
    (open_log_file_state is_path content).ba = [0x00] ∧
    get_lines ba (r ++ termBytes) = ([], [cps], 0) := by
  refine ⟨rfl, ?_⟩
  rw [get_lines_record ba r h1, h2]

theorem c2_buffer_reset_witness :
    (open_log_file_state true [0xFF, 0xFE]).ba = [0x00] ∧
    get_lines [] ([0x00, 0x68, 0x00, 0x69] ++ termBytes) =
      ([], [[0x68, 0x69]], 0) :=
  c2_buffer_reset true [0xFF, 0xFE] [] [0x00, 0x68, 0x00, 0x69] [0x68, 0x69]
    (by decide) (by decide)

/-- Claim C5 (confirmed): a record whose bytes fail UTF-16-BE decoding
produces one decode-error diagnostic and no emitted line; the buffer is
reset, and the next valid record is emitted normally.  `get_lines` is a
total function here because the source catches `UnicodeDecodeError`
(lines 168-175); no exception escapes the loop. -/
theorem c5_decode_error_recovery (ba r1 r2 cps2 : List Nat)
    (h1 : noEarlyTermB ba (r1 ++ termBytes) = true)
    (hd1 : utf16beDecode (ba ++ r1) = none)
    (h2 : noEarlyTermB [] (r2 ++ termBytes) = true)
    (hd2 : utf16beDecode r2 = some cps2) :
    get_lines ba ((r1 ++ termBytes) ++ (r2 ++ termBytes)) = ([], [cps2], 1) := by
  have e1 : get_lines ba (r1 ++ termBytes) = ([], [], 1) := by
    rw [get_lines_record ba r1 h1, hd1]
  have e2 : get_lines [] (r2 ++ termBytes) = ([], [cps2], 0) := by
    have h3 := get_lines_record [] r2 h2
    rw [List.nil_append] at h3
    rw [h3, hd2]
  rw [get_lines_append, e1]
  simp [e2]

theorem c5_witness :
    get_lines [0x00]
      (([0xD8, 0x00] ++ termBytes) ++ ([0x00, 0x68, 0x00, 0x69] ++ termBytes)) =
      ([], [[0x68, 0x69]], 1) :=
  c5_decode_error_recovery [0x00] [0xD8, 0x00] [0x00, 0x68, 0x00, 0x69]
    [0x68, 0x69] (by decide) (by decide) (by decide) (by decide)

/-- Claim C8 (confirmed): a line emission or decode event fires only when
the last four buffer bytes equal the full terminator; in particular a
bare line-feed code unit `00 0A` whose preceding code unit is not
`00 0D` leaves the loop accumulating with no emission, and a record
containing such a sequence is emitted intact (as the full decode of its
bytes) once the true 4-byte terminator arrives. -/
theorem c8_bare_lf (ba r cps : List Nat) (x y : Nat)
    (hxy : ¬ (x = 0x00 ∧ y = 0x0D))
    (hinf : ([0x00, 0x0A] : List Nat) <:+: (ba ++ r))
    (h1 : noEarlyTermB ba (r ++ termBytes) = true)
    (h2 : utf16beDecode (ba ++ r) = some cps) :
    (∀ bb : List Nat, ∀ b : Nat, (feed bb b).2 ≠ FeedOut.noLine →
      termBytes.isSuffixOf (bb ++ [b]) = true) ∧
    feed (ba ++ [x, y, 0x00]) 0x0A = (ba ++ [x, y, 0x00, 0x0A], FeedOut.noLine) ∧
    get_lines ba (r ++ termBytes) = ([], [cps], 0) := by
  refine ⟨?_, ?_, ?_⟩
  · intro bb b hne
    cases hs : termBytes.isSuffixOf (bb ++ [b]) with
    | true => rfl
    | false =>
      exact absurd (by simp [feed, hs]) hne
  · have hne : ¬ termBytes = [x, y, 0x00, 0x0A] := by
      simp only [termBytes]
      intro hc
      injection hc with hx hc2
      injection hc2 with hy _
      exact hxy ⟨hx.symm, hy.symm⟩
    have hs : termBytes.isSuffixOf (ba ++ [x, y, 0x00, 0x0A]) = false :=
      termBytes_not_suffix hne
    simp [feed, hs]
  · rw [get_lines_record ba r h1, h2]

theorem c8_witness :
    (∀ bb : List Nat, ∀ b : Nat, (feed bb b).2 ≠ FeedOut.noLine →
      termBytes.isSuffixOf (bb ++ [b]) = true) ∧
    feed ([] ++ [0x00, 0x41, 0x00]) 0x0A =
      ([] ++ [0x00, 0x41, 0x00, 0x0A], FeedOut.noLine) ∧
    get_lines [] ([0x00, 0x61, 0x00, 0x0A, 0x00, 0x62] ++ termBytes) =
      ([], [[0x61, 0x0A, 0x62]], 0) :=
  c8_bare_lf [] [0x00, 0x61, 0x00, 0x0A, 0x00, 0x62] [0x61, 0x0A, 0x62]
    0x00 0x41 (by decide) (by decide) (by decide) (by decide)

/-- Claim C6 (confirmed): constructing with `is_path=True` on a path that
does not exist raises `FileNotFoundError` at once (lines 75-77); the
open-attempt count is zero, so the retry-until-found loop of
`__open_log_file` is never entered — against a fixed filesystem snapshot
retrying happens only in live mode. -/
theorem c6_openPath_no_retry (fs : LogFS) (target : LogPath)
    (h : fs.existsp target = false) :
    NGSLogPrep_init_path fs target =
      (Except.error ("No such log file: " ++ pathToString target), 0) := by
  simp [NGSLogPrep_init_path, h]

theorem c6_witness :
    NGSLogPrep_init_path c1_fs ["C:", "missing.txt"] =
      (Except.error ("No such log file: " ++ pathToString ["C:", "missing.txt"]), 0) :=
  c6_openPath_no_retry c1_fs ["C:", "missing.txt"] (by decide)

/-- Claim C7 is false on the code: an object successfully constructed with
`is_path=True` has no `__log_path` attribute (the one-shot branch of
`__init__`, lines 72-77, never assigns it), so reading the `log_path`
property raises `AttributeError` instead of returning a path string.
`Option.isSome = false` models the absent attribute. -/
theorem c7_counterexample :
    (NGSLogPrep_init_path c1_fs c1_target).1.map (fun p => p.log_path.isSome) =
      Except.ok false := by rfl

/-- Claim C7 (amended): after a successful live-mode construction the
`log_path` property returns the stored root-directory path; after a
successful one-shot construction the `__log_path` attribute was never
assigned and reading the property raises `AttributeError`. -/
theorem c7_log_path_attr (globResults : List LogPath) (key : LogPath → Nat)
    (fs : LogFS) (target : LogPath) (p q : Prep)
    (hlive : NGSLogPrep_init_live globResults key = Except.ok p)
    (hpath : (NGSLogPrep_init_path fs target).1 = Except.ok q) :
    p.log_path.isSome = true ∧ q.log_path = none := by
  constructor
  · cases hm : pyMaxList key globResults with
    | none =>
      simp only [NGSLogPrep_init_live, hm] at hlive
      exact Except.noConfusion hlive
    | some m =>
      simp only [NGSLogPrep_init_live, hm, Except.ok.injEq] at hlive
      subst hlive
      rfl
  · by_cases he : fs.existsp target = true
    · simp only [NGSLogPrep_init_path, he, if_true, Except.ok.injEq] at hpath
      subst hpath
      rfl
    · simp [NGSLogPrep_init_path, he] at hpath

theorem c7_witness :
    c7_live_prep.log_path.isSome = true ∧ c7_path_prep.log_path = none :=
  c7_log_path_attr c7_glob (fun _ => 0) c1_fs c1_target c7_live_prep
    c7_path_prep rfl rfl

theorem openLoop_from_failed (existsAt : Nat → Bool) :
    ∀ N k warns, (∀ t, k ≤ t → t < k + N → existsAt t = false) →
      existsAt (k + N) = true →
      openLoop existsAt (N + 1) k true warns = some (k + N, warns) := by
  intro N
  induction N with
  | zero =>
    intro k warns _ hfound
    have hf : existsAt k = true := by simpa using hfound
    simp [openLoop, hf]
  | succ n ih =>
    intro k warns habsent hfound
    have h0 : existsAt k = false := habsent k (Nat.le_refl k) (by omega)
    have step : openLoop existsAt (n + 1 + 1) k true warns =
        openLoop existsAt (n + 1) (k + 1) true warns := by
      simp [openLoop, h0]
    rw [step]
    have habsent2 : ∀ t, k + 1 ≤ t → t < (k + 1) + n → existsAt t = false := by
      intro t h1 h2
      exact habsent t (by omega) (by omega)
    have hfound2 : existsAt ((k + 1) + n) = true := by
      have : (k + 1) + n = k + (n + 1) := by omega
      rw [this]
      exact hfound
    have h3 := ih (k + 1) warns habsent2 hfound2
    rw [h3]
    have : (k + 1) + n = k + (n + 1) := by omega
    rw [this]

/-- Claim C9 (confirmed): when the file first exists on attempt `N` (the
attempts are spaced by the fixed `sleep(1)`), the retry loop of
`__open_log_file` succeeds exactly on that attempt, having logged the
file-not-found diagnostic exactly once if the very first attempt failed
and never otherwise — independent of how many retries followed — and it
returns successfully rather than surfacing the absence as an
exception. -/
theorem c9_open_retry (existsAt : Nat → Bool) (N : Nat)
    (habsent : ∀ t, t < N → existsAt t = false)
    (hfound : existsAt N = true) :
    openLoop existsAt (N + 1) 0 false 0 =
      some (N, if existsAt 0 then 0 else 1) := by
  cases N with
  | zero =>
    simp [openLoop, hfound]
  | succ n =>
    have h0 : existsAt 0 = false := habsent 0 (Nat.succ_pos n)
    have step : openLoop existsAt (n + 1 + 1) 0 false 0 =
        openLoop existsAt (n + 1) 1 true 1 := by
      simp [openLoop, h0]
    rw [step, h0]
    have habsent2 : ∀ t, 1 ≤ t → t < 1 + n → existsAt t = false := by
      intro t h1 h2
      exact habsent t (by omega)
    have hfound2 : existsAt (1 + n) = true := by
      have h4 : 1 + n = n + 1 := by omega
      rw [h4]
      exact hfound
    have h3 := openLoop_from_failed existsAt n 1 1 habsent2 hfound2
    rw [h3]
    have h4 : 1 + n = n + 1 := by omega
    rw [h4]
    simp

theorem c9_witness :
    openLoop (fun t => decide (2 < t)) 4 0 false 0 = some (3, 1) := by
  have h := c9_open_retry (fun t => decide (2 < t)) 3 (by decide) (by decide)
  simpa using h

theorem tickVariant_fields (fs : LogFS) (st : MonState) :
    (tickVariant fs st).1.log_path = st.log_path ∧
    (tickVariant fs st).1.log_type = st.log_type ∧
    (tickVariant fs st).1.log_date = st.log_date := by
  unfold tickVariant
  dsimp only
  split
  · split
    · exact ⟨rfl, rfl, rfl⟩
    · exact ⟨rfl, rfl, rfl⟩
  · exact ⟨rfl, rfl, rfl⟩

/-- Claim C3 is false on the code: with the currently open file in the
`log_ngs` variant directory, a date-rollover tick reopens the new date's
file under `log_ngs` (line 142 uses `os.path.dirname(self.__f.name)`),
which differs from the primary `log` directory path the claim names. -/
theorem c3_counterexample :
    (tick c3_fs "20251012" c3_state).2 =
      [["R", "log_ngs", "Chat20251012_00.txt"]] ∧
    (["R", "log_ngs", "Chat20251012_00.txt"] : LogPath) ≠
      ["R", "log", "Chat20251012_00.txt"] := by decide

/-- Claim C3 (amended): on a tick where the current UTC date has advanced
past the stored date, the monitor updates the stored date and reopens the
file `<category><newdate>_00.txt` under the directory of the currently
open file (the directory of `self.__f.name` after the variant check — the
primary `log` directory only when the open file already lives there), then
recomputes both variant candidate paths for the new date. -/
theorem c3_date_rollover (fs : LogFS) (current_date : String) (st : MonState)
    (h : pyStrLt st.log_date current_date = true) :
    (tick fs current_date st).1.log_date = current_date ∧
    (tick fs current_date st).1.f_name =
      (tickVariant fs st).1.f_name.dropLast ++
        [logFileName st.log_type current_date] ∧
    (tick fs current_date st).1.base_path =
      st.log_path ++ ["log", logFileName st.log_type current_date] ∧
    (tick fs current_date st).1.ngs_path =
      st.log_path ++ ["log_ngs", logFileName st.log_type current_date] ∧
    (tick fs current_date st).2 =
      (tickVariant fs st).2 ++
        [(tickVariant fs st).1.f_name.dropLast ++
          [logFileName st.log_type current_date]] := by
  obtain ⟨hp, ht, hd⟩ := tickVariant_fields fs st
  unfold tick tickDate
  dsimp only
  rw [hd, ht, hp]
  simp [h]

theorem c3_witness :
    (tick c3_fs "20251012" c3_state).1.log_date = "20251012" ∧
    (tick c3_fs "20251012" c3_state).1.f_name =
      (tickVariant c3_fs c3_state).1.f_name.dropLast ++
        [logFileName "Chat" "20251012"] := by
  have h := c3_date_rollover c3_fs "20251012" c3_state (by decide)
  exact ⟨h.1, h.2.1⟩

/-- Claim C4 is false on the code: when only the `log_ngs` candidate
exists and it differs from the currently open file, the tick performs no
reopen at all — the arbitration of lines 132-135 runs only when both
candidate files exist. -/
theorem c4_counterexample :
    tick c4_fs "20251011" c4_state = (c4_state, []) ∧
    c4_fs.existsp c4_state.ngs_path = true ∧
    c4_fs.existsp c4_state.base_path = false ∧
    c4_state.ngs_path ≠ c4_state.f_name := by decide

/-- Claim C4 (amended): variant arbitration happens only on ticks where
both candidate files exist; then the one with the newer modification time
wins (the primary on a tie), and a reopen is triggered exactly when the
winner differs from the currently open file's path.  When at most one
candidate exists, the tick leaves the state unchanged and triggers no
reopen. -/
theorem c4_variant_arbitration (fs : LogFS) (st : MonState) :
    (¬ (fs.existsp st.base_path = true ∧ fs.existsp st.ngs_path = true) →
      tickVariant fs st = (st, [])) ∧
    (fs.existsp st.base_path = true → fs.existsp st.ngs_path = true →
      ((fs.mtime st.ngs_path > fs.mtime st.base_path →
          (tickVariant fs st).1.f_name = st.ngs_path) ∧
       (fs.mtime st.ngs_path ≤ fs.mtime st.base_path →
          (tickVariant fs st).1.f_name = st.base_path) ∧
       (tickVariant fs st).2 =
         (if pyMax2 fs.mtime st.base_path st.ngs_path = st.f_name then []
          else [pyMax2 fs.mtime st.base_path st.ngs_path]))) := by
  constructor
  · intro hne
    have hb : (fs.existsp st.base_path && fs.existsp st.ngs_path) = false := by
      cases hb1 : fs.existsp st.base_path <;>
        cases hb2 : fs.existsp st.ngs_path <;> simp_all
    simp [tickVariant, hb]
  · intro h1 h2
    have hw : (tickVariant fs st).1.f_name =
        pyMax2 fs.mtime st.base_path st.ngs_path := by
      unfold tickVariant
      rw [h1, h2]
      by_cases hne : pyMax2 fs.mtime st.base_path st.ngs_path = st.f_name
      · simp [hne]
      · simp [hne]
    refine ⟨?_, ?_, ?_⟩
    · intro hgt
      rw [hw]
      simp [pyMax2, hgt]
    · intro hle
      rw [hw]
      simp [pyMax2, Nat.not_lt.2 hle]
    · unfold tickVariant
      rw [h1, h2]
      by_cases hne : pyMax2 fs.mtime st.base_path st.ngs_path = st.f_name
      · simp [hne]
      · simp [hne]

theorem c4_witness :
    tickVariant c4_fs c4_state = (c4_state, []) ∧
    (tickVariant c4w_fs c4_state).1.f_name = c4_state.ngs_path := by
  constructor
  · exact (c4_variant_arbitration c4_fs c4_state).1 (by decide)
  · exact ((c4_variant_arbitration c4w_fs c4_state).2 (by decide) (by decide)).1
      (by decide)

/-- Claim C10 (confirmed): when both candidates exist with equal
modification times, `max(base_path, ngs_path, key=os.path.getmtime)`
returns its first argument, so the tick's arbitration selects the primary
(base-game `log`) variant and the handle ends the tick open on the primary
path — a tie never switches it to the `log_ngs` variant. -/
theorem c10_tie_primary (fs : LogFS) (current_date : String) (st : MonState)
    (hb : fs.existsp st.base_path = true)
    (hn : fs.existsp st.ngs_path = true)
    (heq : fs.mtime st.base_path = fs.mtime st.ngs_path)
    (hd : pyStrLt st.log_date current_date = false) :
    pyMax2 fs.mtime st.base_path st.ngs_path = st.base_path ∧
    (tick fs current_date st).1.f_name = st.base_path := by
  have hmax : pyMax2 fs.mtime st.base_path st.ngs_path = st.base_path := by
    unfold pyMax2
    rw [heq]
    simp
  refine ⟨hmax, ?_⟩
  have hvar : (tickVariant fs st).1.f_name = st.base_path := by
    unfold tickVariant
    dsimp only
    rw [hb, hn, hmax]
    by_cases hne : st.base_path = st.f_name
    · rw [if_pos (show (true && true) = true from rfl),
        if_neg (by simpa using hne)]
      exact hne.symm
    · rw [if_pos (show (true && true) = true from rfl), if_pos hne]
  have hdate : (tickVariant fs st).1.log_date = st.log_date :=
    (tickVariant_fields fs st).2.2
  unfold tick tickDate
  dsimp only
  rw [hdate]
  simp [hd, hvar]

theorem c10_witness :
    pyMax2 c10_fs.mtime c10_state.base_path c10_state.ngs_path =
      c10_state.base_path ∧
    (tick c10_fs "20251011" c10_state).1.f_name = c10_state.base_path :=
  c10_tie_primary c10_fs "20251011" c10_state (by decide) (by decide)
    (by decide) (by decide)
